import Mathlib

/-!
Verification of the budget_buddy month-record model (src/budget_buddy.py).

The development shallow-embeds the persistence and aggregation core of the
program: JSON values are modelled by an inductive `JVal`, Python runtime
behaviour (truthiness, `or`, `float(...)`, `dict.get`, iteration) by explicit
total functions returning `Option` where the Python operation can raise, and
the flat-file store by an association list from file names to parsed contents
(`none` standing for a file whose bytes do not parse as JSON).  Monetary
amounts are carried as exact rationals `ℚ`, the standard stand-in for the
decimal arithmetic the spec prescribes.
-/

namespace BudgetBuddy

/-- JSON values as produced by the Python json.load: null, booleans, numbers,
strings, arrays and objects (objects keep insertion order, as Python dicts do). -/
inductive JVal where
  | null
  | bool (b : Bool)
  | num (q : ℚ)
  | str (s : String)
  | arr (xs : List JVal)
  | obj (kvs : List (String × JVal))

/-- Python truthiness: None, False, 0, empty string/list/dict are falsy,
everything else is truthy. -/
def pyTruthy : JVal → Bool
  | .null => false
  | .bool b => b
  | .num q => decide (q ≠ 0)
  | .str s => decide (s ≠ "")
  | .arr xs => !xs.isEmpty
  | .obj kvs => !kvs.isEmpty

/-- Python `a or b`: the left operand if it is truthy, otherwise the right. -/
def pyOr (a b : JVal) : JVal := if pyTruthy a then a else b

/-- Numeric value of a list of decimal digits, most significant first. -/
def digitsVal (ds : List Char) : Nat :=
  ds.foldl (fun n c => 10 * n + (c.toNat - 48)) 0

/-- Python float(s) on a string, modelled for plain decimal literals: an
optional sign followed by digits with an optional fractional part.  CPython
additionally accepts exponents, inf/nan, underscores and surrounding
whitespace; none of those forms are produced or consumed by this program, and
on every other string float() raises, modelled by `none`. -/
def pyFloatOfString (s : String) : Option ℚ :=
  let signed : ℚ × List Char :=
    match s.data with
    | '-' :: rest => (-1, rest)
    | '+' :: rest => (1, rest)
    | cs => (1, cs)
  let sign := signed.1
  let cs := signed.2
  let intPart := cs.takeWhile Char.isDigit
  let rest := cs.dropWhile Char.isDigit
  match rest with
  | [] =>
    if intPart.isEmpty then none
    else some (sign * (digitsVal intPart : ℚ))
  | '.' :: frac =>
    if frac.all Char.isDigit && !(intPart.isEmpty && frac.isEmpty) then
      some (sign * ((digitsVal intPart : ℚ) + (digitsVal frac : ℚ) / (10 ^ frac.length)))
    else none
  | _ => none

/-- Python float(v): numbers are returned as-is, booleans become 0/1, numeric
strings are parsed; on None, lists and dicts float() raises (TypeError), and on
non-numeric strings it raises (ValueError) — both modelled by `none`. -/
def pyFloat : JVal → Option ℚ
  | .num q => some q
  | .bool b => some (if b then 1 else 0)
  | .str s => pyFloatOfString s
  | .null => none
  | .arr _ => none
  | .obj _ => none

/-- Python dict.get(k, dflt) on the key-value list of an object (keys of a dict
produced by json.load are unique, so first match is the value). -/
def dictGet : List (String × JVal) → String → JVal → JVal
  | [], _, dflt => dflt
  | (k1, v) :: rest, k, dflt => if k1 = k then v else dictGet rest k dflt

/-- Python iteration over a value: lists yield their elements, strings their
characters, dicts their keys; iterating None/bool/number raises (`none`). -/
def pyIter : JVal → Option (List JVal)
  | .arr xs => some xs
  | .str s => some (s.data.map (fun c => JVal.str (String.mk [c])))
  | .obj kvs => some (kvs.map (fun p => JVal.str p.1))
  | .null => none
  | .bool _ => none
  | .num _ => none

/-- Python list comprehension [f x for x in xs] where evaluating f can raise:
elements are processed left to right and the first exception aborts the whole
comprehension. -/
def pyListMap (f : α → Option β) : List α → Option (List β)
  | [] => some []
  | x :: xs =>
    match f x with
    | none => none
    | some y =>
      match pyListMap f xs with
      | none => none
      | some ys => some (y :: ys)

/-- Canonical income line item ({"name": ..., "amount": float}); the name is
kept verbatim as the JSON value x.get("name", "") returned. -/
structure IncomeItem where
  name : JVal
  amount : ℚ

/-- Canonical bill line item ({"name": ..., "amount": float, "paid": bool}). -/
structure BillItem where
  name : JVal
  amount : ℚ
  paid : Bool

/-- Canonical expense line item ({"name": ..., "spent": float}). -/
structure ExpenseItem where
  name : JVal
  spent : ℚ

/-- Canonical savings line item ({"name": ..., "saved": float}). -/
structure SavingsItem where
  name : JVal
  saved : ℚ

/-- Canonical month record, the shape every caller of load_month_data sees. -/
structure MonthData where
  rollover : ℚ
  debt : ℚ
  income_items : List IncomeItem
  bill_items : List BillItem
  expense_items : List ExpenseItem
  savings_items : List SavingsItem

/-- default_month_data (budget_buddy.py lines 47-66): the starter template for
a month with no stored record. -/
def default_month_data : MonthData where
  rollover := 0
  debt := 0
  income_items := [⟨JVal.str "Paycheck", 0⟩]
  bill_items :=
    [⟨JVal.str "Rent/Mortgage", 0, false⟩,
     ⟨JVal.str "Utilities", 0, false⟩,
     ⟨JVal.str "Internet", 0, false⟩]
  expense_items :=
    [⟨JVal.str "Groceries", 0⟩,
     ⟨JVal.str "Dining Out", 0⟩,
     ⟨JVal.str "Transportation", 0⟩]
  savings_items :=
    [⟨JVal.str "Emergency Fund", 0⟩,
     ⟨JVal.str "Retirement", 0⟩]

/-- Income-item coercion, one element of the comprehension at line 80:
{"name": x.get("name", ""), "amount": float(x.get("amount", 0.0) or 0.0)}.
Iterating a non-dict x makes x.get raise, modelled by `none`. -/
def normIncomeItem : JVal → Option IncomeItem
  | .obj kvs =>
    match pyFloat (pyOr (dictGet kvs "amount" (JVal.num 0)) (JVal.num 0)) with
    | none => none
    | some a => some ⟨dictGet kvs "name" (JVal.str ""), a⟩
  | _ => none

/-- Bill-item coercion (lines 84-90): amount is
float(x.get("amount") or x.get("actual", 0.0) or 0.0) — x.get("amount")
defaults to None, the legacy key "actual" is tried when "amount" is falsy —
and paid is bool(x.get("paid", False)). -/
def normBillItem : JVal → Option BillItem
  | .obj kvs =>
    match pyFloat (pyOr (pyOr (dictGet kvs "amount" JVal.null)
        (dictGet kvs "actual" (JVal.num 0))) (JVal.num 0)) with
    | none => none
    | some a =>
      some ⟨dictGet kvs "name" (JVal.str ""), a,
            pyTruthy (dictGet kvs "paid" (JVal.bool false))⟩
  | _ => none

/-- Expense-item coercion (line 94):
{"name": x.get("name", ""), "spent": float(x.get("spent", 0.0) or 0.0)}. -/
def normExpenseItem : JVal → Option ExpenseItem
  | .obj kvs =>
    match pyFloat (pyOr (dictGet kvs "spent" (JVal.num 0)) (JVal.num 0)) with
    | none => none
    | some a => some ⟨dictGet kvs "name" (JVal.str ""), a⟩
  | _ => none

/-- Savings-item coercion (line 98):
{"name": x.get("name", ""), "saved": float(x.get("saved", 0.0) or 0.0)}. -/
def normSavingsItem : JVal → Option SavingsItem
  | .obj kvs =>
    match pyFloat (pyOr (dictGet kvs "saved" (JVal.num 0)) (JVal.num 0)) with
    | none => none
    | some a => some ⟨dictGet kvs "name" (JVal.str ""), a⟩
  | _ => none

/-- Normalization step of load_month_data (lines 73-100): coerce a parsed
raw record d into the canonical shape.  Every field of the default template is
overwritten, so the result depends on d alone.  A Python exception anywhere in
the coercion (d not a dict, an item not a dict, float() on an unconvertible
truthy value, iterating a number) is modelled by `none`. -/
def normalizeMonth (d : JVal) : Option MonthData :=
  match d with
  | .obj kvs => do
    let rollover ← pyFloat (pyOr (dictGet kvs "rollover" (JVal.num 0)) (JVal.num 0))
    let debt ← pyFloat (pyOr (dictGet kvs "debt" (JVal.num 0)) (JVal.num 0))
    let incomeRaw ← pyIter (dictGet kvs "income_items" (JVal.arr []))
    let income_items ← pyListMap normIncomeItem incomeRaw
    let billsRaw ← pyIter (dictGet kvs "bill_items" (JVal.arr []))
    let bill_items ← pyListMap normBillItem billsRaw
    let expensesRaw ← pyIter (dictGet kvs "expense_items" (JVal.arr []))
    let expense_items ← pyListMap normExpenseItem expensesRaw
    let savingsRaw ← pyIter (dictGet kvs "savings_items" (JVal.arr []))
    let savings_items ← pyListMap normSavingsItem savingsRaw
    some ⟨rollover, debt, income_items, bill_items, expense_items, savings_items⟩
  | _ => none

/-- The data directory, modelled as a list of (file name, content) pairs.
Content `none` stands for a file whose bytes exist but do not parse as JSON
(json.load raises); `some v` for a file parsing to the JSON value v. -/
abbrev Store := List (String × Option JVal)

/-- File-system lookup: the content of the named file, or `none` when no such
file exists. -/
def storeLookup : Store → String → Option (Option JVal)
  | [], _ => none
  | (n, c) :: rest, name => if n = name then some c else storeLookup rest name

/-- Writing a file: replaces any previous content under that name. -/
def storeSet (s : Store) (name : String) (content : Option JVal) : Store :=
  (name, content) :: s.filter (fun p => p.1 ≠ name)

/-- get_data_file (line 44-45): DATA_DIR / f"budget_{month_ym}.json". -/
def get_data_file (month_ym : String) : String :=
  "budget_" ++ month_ym ++ ".json"

/-- Failure modes of load_month_data, which has no exception handler: either
json.load raised on unparseable bytes, or the coercion step raised. -/
inductive LoadError where
  | corruptData
  | coerceError

/-- load_month_data (lines 68-101): if the file of the month exists, parse and
normalize it — json.load or coercion failures propagate to the caller — and
otherwise return the default record. -/
def load_month_data (s : Store) (month_ym : String) : Except LoadError MonthData :=
  match storeLookup s (get_data_file month_ym) with
  | none => .ok default_month_data
  | some none => .error .corruptData
  | some (some d) =>
    match normalizeMonth d with
    | some m => .ok m
    | none => .error .coerceError

/-- State-passing form of load_month_data: the source body only ever opens the
file for reading (open(fp, "r")) and performs no write or delete, so the store
component of the result is the input store unchanged. -/
def load_month_data_st (month_ym : String) (s : Store) :
    Except LoadError MonthData × Store :=
  (load_month_data s month_ym, s)

/-- save_month_data (lines 103-106): overwrite the file of the month with the
serialized record. -/
def save_month_data (month_ym : String) (d : JVal) (s : Store) : Store :=
  storeSet s (get_data_file month_ym) (some d)

/-- Lexicographic comparison of char lists by code point, the order the Python
sorted() uses on strings. -/
def chLe : List Char → List Char → Bool
  | [], _ => true
  | _ :: _, [] => false
  | a :: as, b :: bs => if a = b then chLe as bs else decide (a < b)

/-- String order used by sorted(): lexicographic by code point. -/
def strLe (a b : String) : Prop := chLe a.data b.data = true

instance : DecidableRel strLe := fun a b => by unfold strLe; infer_instance

/-- Bool test that p is a prefix of s, character by character. -/
def chPre : List Char → List Char → Bool
  | [], _ => true
  | _ :: _, [] => false
  | a :: as, b :: bs => a = b && chPre as bs

/-- m.startswith(p) on strings. -/
def strStarts (s p : String) : Bool := chPre p.data s.data

/-- Name check performed by the glob pattern budget_*.json: the name starts
with "budget_" and ends with ".json". -/
def globBudgetJson (name : String) : Bool :=
  chPre "budget_".data name.data && chPre ".json".data.reverse name.data.reverse

/-- Attempt to match the regex budget_(\d{4}-\d{2})\.json at the head of the
character list, returning the captured month key.  the Python \d matches any
Unicode decimal digit; the ASCII digits the program ever writes are modelled. -/
def matchKeyAt : List Char → Option String
  | 'b' :: 'u' :: 'd' :: 'g' :: 'e' :: 't' :: '_' ::
    y1 :: y2 :: y3 :: y4 :: '-' :: m1 :: m2 :: '.' :: 'j' :: 's' :: 'o' :: 'n' :: _ =>
    if y1.isDigit && y2.isDigit && y3.isDigit && y4.isDigit && m1.isDigit && m2.isDigit
    then some (String.mk [y1, y2, y3, y4, '-', m1, m2])
    else none
  | _ => none

/-- Leftmost match of the (unanchored) regex over the name, as
re.findall(...)[0] with the `if m:` guard: the first captured key if any. -/
def firstKey : List Char → Option String
  | [] => none
  | c :: rest =>
    match matchKeyAt (c :: rest) with
    | some k => some k
    | none => firstKey rest

/-- Month key recovered from a file name, when the regex finds one. -/
def extractKey (name : String) : Option String := firstKey name.data

/-- list_saved_months (lines 108-114): glob budget_*.json over the data
directory, pull the first regex match out of each name, and return the keys as
sorted(set(months)). -/
def list_saved_months (s : Store) : List String :=
  let names := (s.map Prod.fst).filter globBudgetJson
  let months := names.filterMap extractKey
  List.insertionSort strLe months.dedup

/-- Result tuple of calculate_totals, with the local names of the source. -/
structure Totals where
  total_income : ℚ
  total_bills : ℚ
  total_expenses : ℚ
  total_savings : ℚ
  total_debt : ℚ
  rollover : ℚ
  left_amount : ℚ

/-- calculate_totals (lines 196-204), applied as in the program to the
canonical record produced by load_month_data.  On canonical items the source
re-coercion float(x.get(..., 0.0) or 0.0) is the identity on each stored
amount (a zero amount is replaced by the literal 0.0 of equal value), so each
total is the plain sum over the corresponding list. -/
def calculate_totals (data : MonthData) : Totals :=
  let total_income := (data.income_items.map IncomeItem.amount).sum
  let total_bills := (data.bill_items.map BillItem.amount).sum
  let total_expenses := (data.expense_items.map ExpenseItem.spent).sum
  let total_savings := (data.savings_items.map SavingsItem.saved).sum
  let total_debt := data.debt
  let rollover := data.rollover
  let left_amount := total_income + rollover - total_expenses - total_bills
    - total_savings - total_debt
  ⟨total_income, total_bills, total_expenses, total_savings, total_debt,
   rollover, left_amount⟩

/-- One row of the DataFrame built by aggregate_year (lines 127-135). -/
structure YearRow where
  month : String
  income : ℚ
  expenses : ℚ
  bills : ℚ
  saved : ℚ
  debt : ℚ
  left : ℚ

/-- Row built for one month inside the aggregate_year loop (lines 120-135);
as in calculate_totals the re-coercions are the identity on canonical data. -/
def yearRow (ym : String) (d : MonthData) : YearRow :=
  let income := (d.income_items.map IncomeItem.amount).sum
  let expenses := (d.expense_items.map ExpenseItem.spent).sum
  let bills := (d.bill_items.map BillItem.amount).sum
  let saved := (d.savings_items.map SavingsItem.saved).sum
  let debt := d.debt
  let left := income - expenses - bills - saved - debt
  ⟨ym, income, expenses, bills, saved, debt, left⟩

/-- Month keys of the requested year (line 117):
[m for m in list_saved_months() if m.startswith(f"{year}-")]. -/
def monthsOfYear (year : Nat) (s : Store) : List String :=
  (list_saved_months s).filter (fun m => strStarts m (toString year ++ "-"))

/-- Body of the aggregate_year loop (lines 118-135): one row per month in
order; an exception from load_month_data aborts the whole aggregation. -/
def aggregateRows (s : Store) : List String → Except LoadError (List YearRow)
  | [] => .ok []
  | ym :: rest =>
    match load_month_data s ym with
    | .error e => .error e
    | .ok d =>
      match aggregateRows s rest with
      | .error e => .error e
      | .ok rows => .ok (yearRow ym d :: rows)

/-- aggregate_year (lines 116-136). -/
def aggregate_year (year : Nat) (s : Store) : Except LoadError (List YearRow) :=
  aggregateRows s (monthsOfYear year s)

/-- Serialized form of a canonical income item, as json.dump writes it. -/
def IncomeItem.toJson (i : IncomeItem) : JVal :=
  .obj [("name", i.name), ("amount", .num i.amount)]

/-- Serialized form of a canonical bill item. -/
def BillItem.toJson (i : BillItem) : JVal :=
  .obj [("name", i.name), ("amount", .num i.amount), ("paid", .bool i.paid)]

/-- Serialized form of a canonical expense item. -/
def ExpenseItem.toJson (i : ExpenseItem) : JVal :=
  .obj [("name", i.name), ("spent", .num i.spent)]

/-- Serialized form of a canonical savings item. -/
def SavingsItem.toJson (i : SavingsItem) : JVal :=
  .obj [("name", i.name), ("saved", .num i.saved)]

/-- Serialized form of a canonical month record: the JSON object json.dump
writes for the dict load_month_data returned (keys in the insertion order of
default_month_data, which every normalized record shares). -/
def MonthData.toJson (m : MonthData) : JVal :=
  .obj [("rollover", .num m.rollover),
        ("debt", .num m.debt),
        ("income_items", .arr (m.income_items.map IncomeItem.toJson)),
        ("bill_items", .arr (m.bill_items.map BillItem.toJson)),
        ("expense_items", .arr (m.expense_items.map ExpenseItem.toJson)),
        ("savings_items", .arr (m.savings_items.map SavingsItem.toJson))]

/-! ## Helper lemmas -/

/-- The coercion float(v or 0.0) is the identity on a number v: a nonzero v is
truthy and returned as-is, a zero v is replaced by the equal literal 0.0. -/
theorem pyFloat_pyOr_num (a : ℚ) : pyFloat (pyOr (JVal.num a) (JVal.num 0)) = some a := by
  by_cases h : a = 0
  · subst h; rfl
  · unfold pyOr pyTruthy
    rw [if_pos (decide_eq_true h)]
    rfl

/-- The bill coercion float((v or 0.0) or 0.0) likewise returns a number v. -/
theorem pyFloat_pyOr_pyOr_num (a : ℚ) :
    pyFloat (pyOr (pyOr (JVal.num a) (JVal.num 0)) (JVal.num 0)) = some a := by
  by_cases h : a = 0
  · subst h; rfl
  · unfold pyOr pyTruthy
    rw [if_pos (decide_eq_true h), if_pos (decide_eq_true h)]
    rfl

/-- Re-normalizing a serialized canonical income item returns it unchanged. -/
theorem normIncomeItem_toJson (i : IncomeItem) :
    normIncomeItem i.toJson = some i := by
  simp [normIncomeItem, IncomeItem.toJson, dictGet, pyFloat_pyOr_num]

/-- Re-normalizing a serialized canonical bill item returns it unchanged. -/
theorem normBillItem_toJson (i : BillItem) :
    normBillItem i.toJson = some i := by
  simp [normBillItem, BillItem.toJson, dictGet, pyFloat_pyOr_pyOr_num, pyTruthy]

/-- Re-normalizing a serialized canonical expense item returns it unchanged. -/
theorem normExpenseItem_toJson (i : ExpenseItem) :
    normExpenseItem i.toJson = some i := by
  simp [normExpenseItem, ExpenseItem.toJson, dictGet, pyFloat_pyOr_num]

/-- Re-normalizing a serialized canonical savings item returns it unchanged. -/
theorem normSavingsItem_toJson (i : SavingsItem) :
    normSavingsItem i.toJson = some i := by
  simp [normSavingsItem, SavingsItem.toJson, dictGet, pyFloat_pyOr_num]

/-- A comprehension whose body is a left inverse of g maps a g-image list back
to the original list. -/
theorem pyListMap_map (f : β → Option α) (g : α → β) (hfg : ∀ a, f (g a) = some a) :
    ∀ l : List α, pyListMap f (l.map g) = some l := by
  intro l
  induction l with
  | nil => rfl
  | cons x xs ih => simp [pyListMap, hfg x, ih]

/-- Normalization is the identity on serialized canonical records. -/
theorem normalizeMonth_toJson (m : MonthData) :
    normalizeMonth m.toJson = some m := by
  obtain ⟨r, d, inc, bil, exp, sav⟩ := m
  simp [normalizeMonth, MonthData.toJson, dictGet, pyFloat_pyOr_num, pyIter,
    pyListMap_map normIncomeItem IncomeItem.toJson normIncomeItem_toJson,
    pyListMap_map normBillItem BillItem.toJson normBillItem_toJson,
    pyListMap_map normExpenseItem ExpenseItem.toJson normExpenseItem_toJson,
    pyListMap_map normSavingsItem SavingsItem.toJson normSavingsItem_toJson]

/-- Reading back the file just written returns the written content. -/
theorem storeLookup_storeSet_self (s : Store) (n : String) (c : Option JVal) :
    storeLookup (storeSet s n c) n = some c := by
  simp [storeSet, storeLookup]

/-- Structure of a successful aggregation: rows correspond one-to-one, in
order, to the requested months, each row built by yearRow from the record that
load_month_data returned for its month. -/
theorem aggregateRows_ok (s : Store) :
    ∀ (l : List String) (rows : List YearRow), aggregateRows s l = .ok rows →
      List.Forall₂ (fun ym r => ∃ d, load_month_data s ym = .ok d ∧ r = yearRow ym d) l rows := by
  intro l
  induction l with
  | nil =>
    intro rows h
    cases h
    exact .nil
  | cons ym rest ih =>
    intro rows h
    unfold aggregateRows at h
    cases hld : load_month_data s ym with
    | error e => rw [hld] at h; cases h
    | ok d =>
      rw [hld] at h
      cases hrec : aggregateRows s rest with
      | error e => rw [hrec] at h; cases h
      | ok rs =>
        rw [hrec] at h
        cases h
        exact List.Forall₂.cons ⟨d, hld, rfl⟩ (ih rs hrec)

/-- The months of a successful aggregation, in order. -/
theorem aggregateRows_map_month (s : Store) (l : List String) (rows : List YearRow)
    (h : aggregateRows s l = .ok rows) : rows.map YearRow.month = l := by
  have hf := aggregateRows_ok s l rows h
  clear h
  induction hf with
  | nil => rfl
  | cons hd _ ihh =>
    obtain ⟨d, _, rfl⟩ := hd
    simpa [yearRow] using ihh

/-- chLe is total. -/
theorem chLe_total : ∀ as bs : List Char, chLe as bs = true ∨ chLe bs as = true := by
  intro as
  induction as with
  | nil => intro bs; left; rfl
  | cons a as ih =>
    intro bs
    cases bs with
    | nil => right; rfl
    | cons b bs =>
      by_cases hab : a = b
      · subst hab
        rcases ih bs with h | h
        · left; unfold chLe; rw [if_pos rfl]; exact h
        · right; unfold chLe; rw [if_pos rfl]; exact h
      · rcases lt_or_gt_of_ne hab with h | h
        · left; unfold chLe; rw [if_neg hab]; exact decide_eq_true h
        · right; unfold chLe; rw [if_neg (Ne.symm hab)]; exact decide_eq_true h

/-- chLe is transitive. -/
theorem chLe_trans : ∀ as bs cs : List Char,
    chLe as bs = true → chLe bs cs = true → chLe as cs = true := by
  intro as
  induction as with
  | nil => intro bs cs _ _; rfl
  | cons a as ih =>
    intro bs cs h1 h2
    cases bs with
    | nil => exact absurd h1 (by simp [chLe])
    | cons b bs =>
      cases cs with
      | nil => exact absurd h2 (by simp [chLe])
      | cons c cs =>
        unfold chLe at h1 h2 ⊢
        by_cases hab : a = b
        · subst hab
          rw [if_pos rfl] at h1
          by_cases hac : a = c
          · subst hac
            rw [if_pos rfl] at h2 ⊢
            exact ih bs cs h1 h2
          · rw [if_neg hac] at h2 ⊢
            exact h2
        · rw [if_neg hab] at h1
          have hab2 : a < b := of_decide_eq_true h1
          by_cases hbc : b = c
          · subst hbc
            rw [if_neg hab]
            exact decide_eq_true hab2
          · rw [if_neg hbc] at h2
            have hbc2 : b < c := of_decide_eq_true h2
            have hac2 : a < c := lt_trans hab2 hbc2
            rw [if_neg (ne_of_lt hac2)]
            exact decide_eq_true hac2

instance : IsTotal String strLe := ⟨fun a b => chLe_total a.data b.data⟩

instance : IsTrans String strLe := ⟨fun a b c => chLe_trans a.data b.data c.data⟩

/-- The saved-month listing is ascending in the sorted() order. -/
theorem list_saved_months_sorted (s : Store) :
    List.Sorted strLe (list_saved_months s) :=
  List.sorted_insertionSort strLe _

/-- The saved-month listing has no duplicate keys (it is sorted(set(...))). -/
theorem list_saved_months_nodup (s : Store) :
    (list_saved_months s).Nodup := by
  unfold list_saved_months
  exact (List.perm_insertionSort strLe _).symm.nodup (List.nodup_dedup _)

/-- A member of the right list of a Forall₂ is related to some member of the
left list. -/
theorem forall₂_exists_of_mem_right {P : α → β → Prop} :
    ∀ {l : List α} {l2 : List β}, List.Forall₂ P l l2 → ∀ {b}, b ∈ l2 → ∃ a, a ∈ l ∧ P a b := by
  intro l l2 hf
  induction hf with
  | nil => intro b hb; cases hb
  | cons hd _ ih =>
    intro b hb
    rcases List.mem_cons.mp hb with rfl | hb2
    · exact ⟨_, List.mem_cons_self _ _, hd⟩
    · obtain ⟨a, ha, hp⟩ := ih hb2
      exact ⟨a, List.mem_cons_of_mem _ ha, hp⟩

/-- load_month_data on a key whose file holds parseable data that normalizes
successfully returns the normalized record. -/
theorem load_month_data_of_found (s : Store) (k : String) (d : JVal) (m : MonthData)
    (h1 : storeLookup s (get_data_file k) = some (some d))
    (h2 : normalizeMonth d = some m) :
    load_month_data s k = .ok m := by
  simp [load_month_data, h1, h2]

/-! ## Claims -/

/-- Claim C1: for every month record, calculate_totals returns left equal to
income + rollover - expenses - bills - savings - debt, where income, bills,
expenses and savings are the unweighted sums of the corresponding
amount/spent/saved fields over the item lists of the record and debt and rollover
are copied from the record. -/
theorem calculate_totals_left_formula (data : MonthData) :
    (calculate_totals data).left_amount
      = (calculate_totals data).total_income + (calculate_totals data).rollover
        - (calculate_totals data).total_expenses - (calculate_totals data).total_bills
        - (calculate_totals data).total_savings - (calculate_totals data).total_debt
    ∧ (calculate_totals data).total_income = (data.income_items.map IncomeItem.amount).sum
    ∧ (calculate_totals data).total_bills = (data.bill_items.map BillItem.amount).sum
    ∧ (calculate_totals data).total_expenses = (data.expense_items.map ExpenseItem.spent).sum
    ∧ (calculate_totals data).total_savings = (data.savings_items.map SavingsItem.saved).sum
    ∧ (calculate_totals data).total_debt = data.debt
    ∧ (calculate_totals data).rollover = data.rollover :=
  ⟨rfl, rfl, rfl, rfl, rfl, rfl, rfl⟩

/-- Claim C3: for a month key with no stored record, load_month_data returns
exactly the default record: one income item "Paycheck", three starter bills,
three starter expense categories, two starter savings categories, rollover 0,
debt 0, every amount 0. -/
theorem load_absent_returns_default (s : Store) (k : String)
    (h : storeLookup s (get_data_file k) = none) :
    load_month_data s k = .ok default_month_data
    ∧ default_month_data =
        ⟨0, 0,
         [⟨JVal.str "Paycheck", 0⟩],
         [⟨JVal.str "Rent/Mortgage", 0, false⟩, ⟨JVal.str "Utilities", 0, false⟩,
          ⟨JVal.str "Internet", 0, false⟩],
         [⟨JVal.str "Groceries", 0⟩, ⟨JVal.str "Dining Out", 0⟩,
          ⟨JVal.str "Transportation", 0⟩],
         [⟨JVal.str "Emergency Fund", 0⟩, ⟨JVal.str "Retirement", 0⟩]⟩ := by
  constructor
  · unfold load_month_data
    rw [h]
  · rfl

/-- Witness for C3 on the empty store. -/
theorem load_absent_returns_default_witness :
    storeLookup [] (get_data_file "2025-03") = none
    ∧ load_month_data [] "2025-03" = .ok default_month_data :=
  ⟨rfl, (load_absent_returns_default [] "2025-03" rfl).1⟩

/-- Claim C8: for a month key whose stored file exists but does not parse,
load_month_data surfaces the error to the caller and never returns a record —
in particular it does not silently return the default record. -/
theorem load_corrupt_surfaces_error (s : Store) (k : String)
    (h : storeLookup s (get_data_file k) = some none) :
    load_month_data s k = .error .corruptData
    ∧ ∀ m : MonthData, load_month_data s k ≠ .ok m := by
  have h1 : load_month_data s k = .error .corruptData := by
    unfold load_month_data
    rw [h]
  exact ⟨h1, fun m hm => by rw [h1] at hm; cases hm⟩

/-- Witness for C8 on a store holding one unparseable file. -/
theorem load_corrupt_surfaces_error_witness :
    storeLookup [("budget_2025-02.json", none)] (get_data_file "2025-02") = some none
    ∧ load_month_data [("budget_2025-02.json", none)] "2025-02" = .error .corruptData :=
  ⟨rfl, (load_corrupt_surfaces_error [("budget_2025-02.json", none)] "2025-02" rfl).1⟩

/-- Claim C9: for a month key with no stored record, load_month_data is a pure
read: it returns the default record, leaves the store exactly as it was, and
so leaves list_saved_months unchanged. -/
theorem load_absent_pure_read (s : Store) (k : String)
    (h : storeLookup s (get_data_file k) = none) :
    (load_month_data_st k s).1 = .ok default_month_data
    ∧ (load_month_data_st k s).2 = s
    ∧ list_saved_months (load_month_data_st k s).2 = list_saved_months s := by
  refine ⟨?_, rfl, rfl⟩
  show load_month_data s k = .ok default_month_data
  unfold load_month_data
  rw [h]

/-- Witness for C9 on a store holding an unrelated month. -/
theorem load_absent_pure_read_witness :
    storeLookup [("budget_2024-03.json", some (JVal.obj []))] (get_data_file "2024-05") = none
    ∧ (load_month_data_st "2024-05" [("budget_2024-03.json", some (JVal.obj []))]).1
        = .ok default_month_data
    ∧ (load_month_data_st "2024-05" [("budget_2024-03.json", some (JVal.obj []))]).2
        = [("budget_2024-03.json", some (JVal.obj []))] :=
  ⟨rfl,
   (load_absent_pure_read [("budget_2024-03.json", some (JVal.obj []))] "2024-05" rfl).1,
   (load_absent_pure_read [("budget_2024-03.json", some (JVal.obj []))] "2024-05" rfl).2.1⟩

/-- Claim C2 counterexample: normalization is not total.  On a stored record
whose single income item carries the non-numeric string "abc" in its amount
field, float("abc") raises ValueError and load_month_data propagates it, so
the coercion step fails instead of coercing the field to 0.0. -/
theorem normalizeMonth_not_total_cex :
    normalizeMonth (JVal.obj [("income_items",
      JVal.arr [JVal.obj [("name", JVal.str "Job"), ("amount", JVal.str "abc")]])]) = none := rfl

/-- Claim C2 (amended): normalization coerces a missing, null, or otherwise
falsy amount/spent/saved field to 0.0 without throwing (and for bills, when
the legacy actual field is falsy as well); but on a truthy field value that
float() cannot convert the coercion raises rather than coercing to 0. -/
theorem normalizeMonth_falsy_fields_default (kvs : List (String × JVal)) :
    (pyTruthy (dictGet kvs "amount" (JVal.num 0)) = false →
      normIncomeItem (JVal.obj kvs) = some ⟨dictGet kvs "name" (JVal.str ""), 0⟩)
    ∧ (pyTruthy (dictGet kvs "spent" (JVal.num 0)) = false →
      normExpenseItem (JVal.obj kvs) = some ⟨dictGet kvs "name" (JVal.str ""), 0⟩)
    ∧ (pyTruthy (dictGet kvs "saved" (JVal.num 0)) = false →
      normSavingsItem (JVal.obj kvs) = some ⟨dictGet kvs "name" (JVal.str ""), 0⟩)
    ∧ (pyTruthy (dictGet kvs "amount" JVal.null) = false →
       pyTruthy (dictGet kvs "actual" (JVal.num 0)) = false →
      normBillItem (JVal.obj kvs) = some ⟨dictGet kvs "name" (JVal.str ""), 0,
        pyTruthy (dictGet kvs "paid" (JVal.bool false))⟩)
    ∧ (∀ v, dictGet kvs "amount" (JVal.num 0) = v → pyTruthy v = true → pyFloat v = none →
      normIncomeItem (JVal.obj kvs) = none) := by
  refine ⟨?_, ?_, ?_, ?_, ?_⟩
  · intro h
    simp [normIncomeItem, pyOr, h, pyFloat]
  · intro h
    simp [normExpenseItem, pyOr, h, pyFloat]
  · intro h
    simp [normSavingsItem, pyOr, h, pyFloat]
  · intro h1 h2
    simp [normBillItem, pyOr, h1, h2, pyFloat]
  · intro v hv htr hnone
    simp [normIncomeItem, pyOr, hv, htr, hnone]

/-- Concrete line item whose numeric fields are all null. -/
def falsyItemKvs : List (String × JVal) :=
  [("name", JVal.str "x"), ("amount", JVal.null), ("spent", JVal.null), ("saved", JVal.null)]

/-- Witness for C2 (amended) on an item with null numeric fields. -/
theorem normalizeMonth_falsy_fields_default_witness :
    pyTruthy (dictGet falsyItemKvs "amount" (JVal.num 0)) = false
    ∧ normIncomeItem (JVal.obj falsyItemKvs)
        = some ⟨dictGet falsyItemKvs "name" (JVal.str ""), 0⟩
    ∧ normExpenseItem (JVal.obj falsyItemKvs)
        = some ⟨dictGet falsyItemKvs "name" (JVal.str ""), 0⟩
    ∧ normSavingsItem (JVal.obj falsyItemKvs)
        = some ⟨dictGet falsyItemKvs "name" (JVal.str ""), 0⟩
    ∧ normBillItem (JVal.obj falsyItemKvs)
        = some ⟨dictGet falsyItemKvs "name" (JVal.str ""), 0,
                pyTruthy (dictGet falsyItemKvs "paid" (JVal.bool false))⟩ :=
  ⟨rfl,
   (normalizeMonth_falsy_fields_default falsyItemKvs).1 rfl,
   (normalizeMonth_falsy_fields_default falsyItemKvs).2.1 rfl,
   (normalizeMonth_falsy_fields_default falsyItemKvs).2.2.1 rfl,
   (normalizeMonth_falsy_fields_default falsyItemKvs).2.2.2.1 rfl rfl⟩

/-- Claim C4: bill-amount coercion consults the legacy key actual exactly when
the item has no usable amount field, where usable means present with a truthy
value (absent, null, 0, false and empty values are unusable — x.get("amount")
or ... treats them alike): a usable amount is passed to float() and actual is
ignored; with no usable amount a usable actual is passed to float(); with
neither the amount defaults to 0. -/
theorem bill_amount_actual_fallback (kvs : List (String × JVal)) :
    (pyTruthy (dictGet kvs "amount" JVal.null) = true →
      normBillItem (JVal.obj kvs)
        = (pyFloat (dictGet kvs "amount" JVal.null)).map (fun a =>
            ⟨dictGet kvs "name" (JVal.str ""), a,
             pyTruthy (dictGet kvs "paid" (JVal.bool false))⟩))
    ∧ (pyTruthy (dictGet kvs "amount" JVal.null) = false →
       pyTruthy (dictGet kvs "actual" (JVal.num 0)) = true →
      normBillItem (JVal.obj kvs)
        = (pyFloat (dictGet kvs "actual" (JVal.num 0))).map (fun a =>
            ⟨dictGet kvs "name" (JVal.str ""), a,
             pyTruthy (dictGet kvs "paid" (JVal.bool false))⟩))
    ∧ (pyTruthy (dictGet kvs "amount" JVal.null) = false →
       pyTruthy (dictGet kvs "actual" (JVal.num 0)) = false →
      normBillItem (JVal.obj kvs)
        = some ⟨dictGet kvs "name" (JVal.str ""), 0,
                pyTruthy (dictGet kvs "paid" (JVal.bool false))⟩) := by
  refine ⟨?_, ?_, ?_⟩
  · intro h
    cases hf : pyFloat (dictGet kvs "amount" JVal.null) <;>
      simp [normBillItem, pyOr, h, hf]
  · intro h1 h2
    cases hf : pyFloat (dictGet kvs "actual" (JVal.num 0)) <;>
      simp [normBillItem, pyOr, h1, h2, hf]
  · intro h1 h2
    simp [normBillItem, pyOr, h1, h2, pyFloat]

/-- Concrete legacy bill item: no amount field, actual = 50. -/
def billKvs : List (String × JVal) :=
  [("name", JVal.str "Rent"), ("actual", JVal.num 50), ("paid", JVal.bool true)]

/-- Witness for C4 on a legacy bill item carrying only actual. -/
theorem bill_amount_actual_fallback_witness :
    pyTruthy (dictGet billKvs "amount" JVal.null) = false
    ∧ pyTruthy (dictGet billKvs "actual" (JVal.num 0)) = true
    ∧ normBillItem (JVal.obj billKvs)
        = (pyFloat (dictGet billKvs "actual" (JVal.num 0))).map (fun a =>
            ⟨dictGet billKvs "name" (JVal.str ""), a,
             pyTruthy (dictGet billKvs "paid" (JVal.bool false))⟩) :=
  ⟨rfl, rfl, (bill_amount_actual_fallback billKvs).2.1 rfl rfl⟩

/-- Claim C7: saving the normalized record and loading the same key returns a
record field-by-field equal to the normalized record — save followed by load
is the identity on normalized records. -/
theorem save_then_load_roundtrip (s : Store) (k : String) (r : JVal) (m : MonthData)
    (h : normalizeMonth r = some m) :
    load_month_data (save_month_data k m.toJson s) k = .ok m := by
  simp [load_month_data, save_month_data, storeLookup_storeSet_self, normalizeMonth_toJson]

/-- The canonical record with empty line-item lists, as normalization produces
for the stored record {}. -/
def emptyMonth : MonthData := ⟨0, 0, [], [], [], []⟩

/-- Witness for C7: round-trip of the normalization of the raw record {}. -/
theorem save_then_load_roundtrip_witness :
    normalizeMonth (JVal.obj []) = some emptyMonth
    ∧ load_month_data (save_month_data "2025-01" (MonthData.toJson emptyMonth) []) "2025-01"
        = .ok emptyMonth :=
  ⟨rfl, save_then_load_roundtrip [] "2025-01" (JVal.obj []) emptyMonth rfl⟩

/-- Claim C5: every row of a successful yearly aggregation has
left = income - expenses - bills - saved - debt, and that left equals the
monthly totals formula for the same record minus its rollover — the rollover of the record
is excluded from the yearly row, unlike the monthly formula. -/
theorem yearly_row_left_excludes_rollover (y : Nat) (s : Store) (rows : List YearRow)
    (r : YearRow) (h : aggregate_year y s = .ok rows) (hr : r ∈ rows) :
    r.left = r.income - r.expenses - r.bills - r.saved - r.debt
    ∧ ∀ m, load_month_data s r.month = .ok m →
        r.left = (calculate_totals m).left_amount - m.rollover := by
  have hf := aggregateRows_ok s (monthsOfYear y s) rows h
  obtain ⟨ym, _, d, hld, rfl⟩ := forall₂_exists_of_mem_right hf hr
  constructor
  · rfl
  · intro m hm
    rw [show (yearRow ym d).month = ym from rfl, hld] at hm
    cases hm
    show (yearRow ym d).left = (calculate_totals d).left_amount - d.rollover
    simp only [yearRow, calculate_totals]
    ring

/-- Store holding a single saved month 2024-01 whose record is the raw {}. -/
def demoStore : Store := [("budget_2024-01.json", some (JVal.obj []))]

/-- Witness for C5 on the one-month demo store. -/
theorem yearly_row_left_excludes_rollover_witness :
    aggregate_year 2024 demoStore = .ok [yearRow "2024-01" emptyMonth]
    ∧ yearRow "2024-01" emptyMonth ∈ [yearRow "2024-01" emptyMonth]
    ∧ (yearRow "2024-01" emptyMonth).left
        = (yearRow "2024-01" emptyMonth).income - (yearRow "2024-01" emptyMonth).expenses
          - (yearRow "2024-01" emptyMonth).bills - (yearRow "2024-01" emptyMonth).saved
          - (yearRow "2024-01" emptyMonth).debt :=
  ⟨rfl, List.mem_singleton_self _,
   (yearly_row_left_excludes_rollover 2024 demoStore [yearRow "2024-01" emptyMonth]
     (yearRow "2024-01" emptyMonth) rfl (List.mem_singleton_self _)).1⟩

/-- Claim C6: a successful aggregate_year for year Y returns exactly one row
per stored month key under Y — the months of the rows are precisely the saved month
keys with the year-Y prefix, ascending in sorted() order and without
duplicates; a year with zero stored months yields ok [] rather than an error;
and a stored month with zero line items yields a row with all category sums
zero. -/
theorem aggregate_year_rows_exact (y : Nat) (s : Store) :
    (monthsOfYear y s = [] → aggregate_year y s = .ok [])
    ∧ ∀ rows, aggregate_year y s = .ok rows →
        rows.map YearRow.month = monthsOfYear y s
        ∧ List.Sorted strLe (rows.map YearRow.month)
        ∧ (rows.map YearRow.month).Nodup
        ∧ (∀ k, k ∈ rows.map YearRow.month ↔
            k ∈ list_saved_months s ∧ strStarts k (toString y ++ "-") = true)
        ∧ ∀ r ∈ rows, ∀ m, load_month_data s r.month = .ok m →
            m.income_items = [] → m.bill_items = [] → m.expense_items = [] →
            m.savings_items = [] →
            r.income = 0 ∧ r.bills = 0 ∧ r.expenses = 0 ∧ r.saved = 0 := by
  constructor
  · intro h
    unfold aggregate_year
    rw [h]
    rfl
  · intro rows h
    have hmap := aggregateRows_map_month s (monthsOfYear y s) rows h
    refine ⟨hmap, ?_, ?_, ?_, ?_⟩
    · rw [hmap]
      exact (list_saved_months_sorted s).filter _
    · rw [hmap]
      exact (list_saved_months_nodup s).filter _
    · intro k
      rw [hmap]
      unfold monthsOfYear
      simp [List.mem_filter]
    · intro r hr m hm h1 h2 h3 h4
      have hf := aggregateRows_ok s (monthsOfYear y s) rows h
      obtain ⟨ym, _, d, hld, rfl⟩ := forall₂_exists_of_mem_right hf hr
      rw [show (yearRow ym d).month = ym from rfl, hld] at hm
      cases hm
      refine ⟨?_, ?_, ?_, ?_⟩ <;> simp [yearRow, h1, h2, h3, h4]

/-- Witness for C6 on the one-month demo store. -/
theorem aggregate_year_rows_exact_witness :
    aggregate_year 2024 demoStore = .ok [yearRow "2024-01" emptyMonth]
    ∧ [yearRow "2024-01" emptyMonth].map YearRow.month = monthsOfYear 2024 demoStore
    ∧ ((yearRow "2024-01" emptyMonth).income = 0 ∧ (yearRow "2024-01" emptyMonth).bills = 0
       ∧ (yearRow "2024-01" emptyMonth).expenses = 0 ∧ (yearRow "2024-01" emptyMonth).saved = 0) :=
  ⟨rfl,
   ((aggregate_year_rows_exact 2024 demoStore).2 [yearRow "2024-01" emptyMonth] rfl).1,
   ((aggregate_year_rows_exact 2024 demoStore).2 [yearRow "2024-01" emptyMonth] rfl).2.2.2.2
     (yearRow "2024-01" emptyMonth) (List.mem_singleton_self _) emptyMonth rfl rfl rfl rfl rfl⟩

/-- Raw stored record whose four line items all carry the amount q. -/
def rawNeg (q : ℚ) : JVal :=
  JVal.obj
    [("income_items", JVal.arr [JVal.obj [("name", JVal.str "A"), ("amount", JVal.num q)]]),
     ("bill_items", JVal.arr [JVal.obj [("name", JVal.str "B"), ("amount", JVal.num q)]]),
     ("expense_items", JVal.arr [JVal.obj [("name", JVal.str "C"), ("spent", JVal.num q)]]),
     ("savings_items", JVal.arr [JVal.obj [("name", JVal.str "D"), ("saved", JVal.num q)]])]

/-- Canonical form of rawNeg q. -/
def negMonth (q : ℚ) : MonthData :=
  ⟨0, 0, [⟨JVal.str "A", q⟩], [⟨JVal.str "B", q, false⟩], [⟨JVal.str "C", q⟩], [⟨JVal.str "D", q⟩]⟩

/-- Store holding rawNeg q as month 2024-01. -/
def negStore (q : ℚ) : Store := [("budget_2024-01.json", some (rawNeg q))]

/-- Claim C10: normalization does not enforce non-negativity: a negative
amount/spent/saved value in a raw line item survives normalization unchanged
and flows into the category sums of calculate_totals and aggregate_year. -/
theorem negative_amounts_flow (q : ℚ) (hq : q < 0) :
    normalizeMonth (rawNeg q) = some (negMonth q)
    ∧ (calculate_totals (negMonth q)).total_income = q
    ∧ (calculate_totals (negMonth q)).total_bills = q
    ∧ (calculate_totals (negMonth q)).total_expenses = q
    ∧ (calculate_totals (negMonth q)).total_savings = q
    ∧ aggregate_year 2024 (negStore q) = .ok [yearRow "2024-01" (negMonth q)]
    ∧ (yearRow "2024-01" (negMonth q)).income = q
    ∧ (yearRow "2024-01" (negMonth q)).bills = q
    ∧ (yearRow "2024-01" (negMonth q)).expenses = q
    ∧ (yearRow "2024-01" (negMonth q)).saved = q := by
  have hne : q ≠ 0 := ne_of_lt hq
  have h1 : normalizeMonth (rawNeg q) = some (negMonth q) := by
    simp [normalizeMonth, rawNeg, negMonth, dictGet, pyIter, pyListMap,
      normIncomeItem, normBillItem, normExpenseItem, normSavingsItem,
      pyOr, pyTruthy, pyFloat, hne]
  have hagg : aggregate_year 2024 (negStore q) = .ok [yearRow "2024-01" (negMonth q)] := by
    have hld := load_month_data_of_found (negStore q) "2024-01" (rawNeg q) (negMonth q) rfl h1
    have hm : monthsOfYear 2024 (negStore q) = ["2024-01"] := rfl
    unfold aggregate_year
    rw [hm]
    simp [aggregateRows, hld]
  refine ⟨h1, ?_, ?_, ?_, ?_, hagg, ?_, ?_, ?_, ?_⟩ <;>
    simp [calculate_totals, yearRow, negMonth]

/-- Witness for C10 at q = -5. -/
theorem negative_amounts_flow_witness :
    (-5 : ℚ) < 0
    ∧ (normalizeMonth (rawNeg (-5)) = some (negMonth (-5))
    ∧ (calculate_totals (negMonth (-5))).total_income = -5
    ∧ (calculate_totals (negMonth (-5))).total_bills = -5
    ∧ (calculate_totals (negMonth (-5))).total_expenses = -5
    ∧ (calculate_totals (negMonth (-5))).total_savings = -5
    ∧ aggregate_year 2024 (negStore (-5)) = .ok [yearRow "2024-01" (negMonth (-5))]
    ∧ (yearRow "2024-01" (negMonth (-5))).income = -5
    ∧ (yearRow "2024-01" (negMonth (-5))).bills = -5
    ∧ (yearRow "2024-01" (negMonth (-5))).expenses = -5
    ∧ (yearRow "2024-01" (negMonth (-5))).saved = -5) :=
  ⟨by decide, negative_amounts_flow (-5) (by decide)⟩

end BudgetBuddy
